import Mathlib

/-!
Verification of the frame-sampling strategy calculator (`ContextOptimizer`,
src/src/core/context_optimizer.py) of the movie_file_analyzer repository.

Embedding conventions:
* Python `float` values (durations, intervals, rates) are modelled as `ℚ`.
* Python `int` values are modelled as `ℤ`; Python's `int(x)` conversion
  (truncation toward zero) is `py_int`.
* Python `Optional[T]` is `Option T`; the insertion-ordered `dict` returned
  by `get_preset_strategies` is a `List (String × ExtractionStrategy)` in
  insertion order.
* The `ContextOptimizer` instance state (`self.avg_iframes_per_sec`) is an
  explicit first parameter `avg` of each method.
All functions are total, matching the Python code's freedom from raised
exceptions on numeric input.
-/

namespace MovieFileAnalyzer

/-- Python `int(x)` on a rational: truncation toward zero. -/
def py_int (q : ℚ) : ℤ := if q < 0 then -⌊-q⌋ else ⌊q⌋

/-- `AIProvider` enum: the two supported AI backends. -/
inductive AIProvider where
  | claude
  | gemini
deriving DecidableEq

/-- `AIProvider.value`: the string payload of each enum member. -/
def AIProvider.value : AIProvider → String
  | .claude => "claude"
  | .gemini => "gemini"

/-- `ExtractionStrategy` dataclass: a frame-extraction plan. -/
structure ExtractionStrategy where
  mode : String
  interval : Option ℚ
  estimated_frames : ℤ
  description : String
deriving DecidableEq

/-- `ExtractionStrategy.is_iframes_mode` property. -/
def ExtractionStrategy.is_iframes_mode (s : ExtractionStrategy) : Bool :=
  s.mode = "all_iframes"

/-- `ProviderLimits` dataclass: per-provider constraints. -/
structure ProviderLimits where
  max_images : ℤ
  recommended_images : ℤ
  max_image_size_mb : ℚ
  tokens_per_image : ℤ
  description : String
deriving DecidableEq

/-- The static `PROVIDER_LIMITS` table of `ContextOptimizer`. -/
def PROVIDER_LIMITS : AIProvider → ProviderLimits
  | .claude =>
    { max_images := 100
      recommended_images := 80
      max_image_size_mb := 5
      tokens_per_image := 1500
      description := "Claude (최대 100장, 권장 80장)" }
  | .gemini =>
    { max_images := 3600
      recommended_images := 200
      max_image_size_mb := 100
      tokens_per_image := 258
      description := "Gemini (최대 3600장, 권장 200장)" }

/-- `NICE_INTERVALS`: the fixed ascending menu of snap values (seconds). -/
def NICE_INTERVALS : List ℚ := [1, 2, 3, 5, 10, 15, 20, 30, 60]

/-- Python's `min(xs, key=key)` on a nonempty list `b :: l`: a left fold that
replaces the current best only on a strictly smaller key, so the first
minimum wins. -/
def foldMin (key : ℚ → ℚ) (b : ℚ) (l : List ℚ) : ℚ :=
  l.foldl (fun acc a => if key a < key acc then a else acc) b

/-- `ContextOptimizer._round_to_nice_interval`:
`min(self.NICE_INTERVALS, key=lambda x: abs(x - interval))`. -/
def round_to_nice_interval (interval : ℚ) : ℚ :=
  match NICE_INTERVALS with
  | [] => interval
  | x :: xs => foldMin (fun c => |c - interval|) x xs

/-- `ContextOptimizer.estimate_iframes`: `int(duration_sec * self.avg_iframes_per_sec)`. -/
def estimate_iframes (avg duration_sec : ℚ) : ℤ :=
  py_int (duration_sec * avg)

/-- Body of `ContextOptimizer.calculate_strategy` after the provider-table
lookup `limits = self.PROVIDER_LIMITS[provider]`, parametrized directly by
the `ProviderLimits` record (the code uses the provider only through it). -/
def calculate_strategy_limits (avg duration_sec : ℚ) (limits : ProviderLimits)
    (estimated_iframes_arg : Option ℤ) : ExtractionStrategy :=
  let max_frames := limits.recommended_images
  let ei := estimated_iframes_arg.getD (estimate_iframes avg duration_sec)
  if ei ≤ max_frames then
    { mode := "all_iframes"
      interval := none
      estimated_frames := ei
      description := s!"모든 I-Frame 추출 (약 {ei}장)" }
  else
    let ideal_interval : ℚ := duration_sec / (max_frames : ℚ)
    let ideal_clamped : ℚ := max 1 (min 60 ideal_interval)
    let interval := round_to_nice_interval ideal_clamped
    let estimated := py_int (duration_sec / interval)
    let iv_int := py_int interval
    { mode := "interval"
      interval := some interval
      estimated_frames := estimated
      description := s!"{iv_int}초 간격 추출 (약 {estimated}장)" }

/-- `ContextOptimizer.calculate_strategy`. -/
def calculate_strategy (avg duration_sec : ℚ) (provider : AIProvider)
    (estimated_iframes_arg : Option ℤ) : ExtractionStrategy :=
  calculate_strategy_limits avg duration_sec (PROVIDER_LIMITS provider)
    estimated_iframes_arg

/-- `ContextOptimizer.get_preset_strategies`, the dict modelled as an
insertion-ordered association list. -/
def get_preset_strategies (avg duration_sec : ℚ) (provider : AIProvider) :
    List (String × ExtractionStrategy) :=
  (if 4 ≤ duration_sec then
    let estimated := py_int (duration_sec / 2)
    [("상세 (2초 간격)",
      { mode := "interval"
        interval := some 2
        estimated_frames := estimated
        description := s!"2초 간격 (약 {estimated}장)" })]
   else []) ++
  (if 10 ≤ duration_sec then
    let estimated := py_int (duration_sec / 5)
    [("표준 (5초 간격)",
      { mode := "interval"
        interval := some 5
        estimated_frames := estimated
        description := s!"5초 간격 (약 {estimated}장)" })]
   else []) ++
  (if 20 ≤ duration_sec then
    let estimated := py_int (duration_sec / 10)
    [("간략 (10초 간격)",
      { mode := "interval"
        interval := some 10
        estimated_frames := estimated
        description := s!"10초 간격 (약 {estimated}장)" })]
   else []) ++
  (let estimated_iframes := estimate_iframes avg duration_sec
   if estimated_iframes ≤ (PROVIDER_LIMITS provider).max_images then
    [("모든 I-Frame",
      { mode := "all_iframes"
        interval := none
        estimated_frames := estimated_iframes
        description := s!"모든 I-Frame (약 {estimated_iframes}장)" })]
   else []) ++
  [("자동 (추천)", calculate_strategy avg duration_sec provider none)]

/-- `ContextOptimizer.validate_strategy`: `(ok, message)`. -/
def validate_strategy (strategy : ExtractionStrategy) (provider : AIProvider) :
    Bool × String :=
  let limits := PROVIDER_LIMITS provider
  let ef := strategy.estimated_frames
  let mx := limits.max_images
  let rec_img := limits.recommended_images
  let pv := provider.value
  if mx < ef then
    (false, s!"이미지 수({ef}장)가 {pv}의 최대 허용({mx}장)을 초과합니다.")
  else if rec_img < ef then
    (true,
      s!"이미지 수({ef}장)가 권장 ({rec_img}장)을 초과합니다. 토큰 사용량이 증가할 수 있습니다.")
  else
    (true, "적정 범위입니다.")

/-- `ContextOptimizer.estimate_tokens`: `frame_count * limits.tokens_per_image`. -/
def estimate_tokens (frame_count : ℤ) (provider : AIProvider) : ℤ :=
  frame_count * (PROVIDER_LIMITS provider).tokens_per_image

/-- The mode/interval pairing invariant of `ExtractionStrategy`. -/
def modeInvariant (s : ExtractionStrategy) : Prop :=
  (s.mode = "all_iframes" ↔ s.interval = none) ∧
    (s.mode = "interval" ↔ ∃ x, s.interval = some x ∧ 0 < x)

/-! ### General lemmas about `foldMin` (Python's first-minimum `min` with key) -/

theorem foldMin_nil (key : ℚ → ℚ) (b : ℚ) : foldMin key b [] = b := rfl

theorem foldMin_cons (key : ℚ → ℚ) (b a : ℚ) (l : List ℚ) :
    foldMin key b (a :: l) =
      foldMin key (if key a < key b then a else b) l := rfl

/-- The result of `foldMin` is the seed or one of the list elements. -/
theorem foldMin_eq_or_mem (key : ℚ → ℚ) (l : List ℚ) :
    ∀ b, foldMin key b l = b ∨ foldMin key b l ∈ l := by
  induction l with
  | nil => intro b; exact Or.inl rfl
  | cons a l ih =>
    intro b
    rw [foldMin_cons]
    rcases ih (if key a < key b then a else b) with h | h
    · rw [h]
      by_cases hc : key a < key b
      · rw [if_pos hc]; exact Or.inr (List.mem_cons_self a l)
      · rw [if_neg hc]; exact Or.inl rfl
    · exact Or.inr (List.mem_cons_of_mem a h)

/-- The result of `foldMin` has a key no larger than the seed's and than any
list element's. -/
theorem foldMin_key_le (key : ℚ → ℚ) (l : List ℚ) :
    ∀ b, key (foldMin key b l) ≤ key b ∧
      ∀ y ∈ l, key (foldMin key b l) ≤ key y := by
  induction l with
  | nil => intro b; exact ⟨le_refl _, by simp⟩
  | cons a l ih =>
    intro b
    rw [foldMin_cons]
    obtain ⟨h1, h2⟩ := ih (if key a < key b then a else b)
    have hb : key (if key a < key b then a else b) ≤ key b := by
      by_cases hc : key a < key b
      · rw [if_pos hc]; exact le_of_lt hc
      · rw [if_neg hc]
    have ha : key (if key a < key b then a else b) ≤ key a := by
      by_cases hc : key a < key b
      · rw [if_pos hc]
      · rw [if_neg hc]; exact le_of_not_lt hc
    refine ⟨le_trans h1 hb, ?_⟩
    intro y hy
    rcases List.mem_cons.mp hy with rfl | hy'
    · exact le_trans h1 ha
    · exact h2 y hy'

/-- On a `≤`-sorted seed-plus-list, `foldMin` keeps the first minimum, so any
element whose key ties (or beats) the result's key lies at or after it: the
result is `≤` every such element. -/
theorem foldMin_first_min (key : ℚ → ℚ) (l : List ℚ) :
    ∀ b, (b :: l).Pairwise (· ≤ ·) →
      ∀ y ∈ b :: l, key y ≤ key (foldMin key b l) → foldMin key b l ≤ y := by
  induction l with
  | nil =>
    intro b _ y hy _
    rw [List.mem_singleton] at hy
    subst hy
    exact le_refl y
  | cons a l ih =>
    intro b hsort y hy hk
    obtain ⟨hb, hrest⟩ := List.pairwise_cons.mp hsort
    have hba : b ≤ a := hb a (List.mem_cons_self a l)
    have hsbl : (b :: l).Pairwise (· ≤ ·) :=
      List.pairwise_cons.mpr
        ⟨fun z hz => hb z (List.mem_cons_of_mem a hz),
         (List.pairwise_cons.mp hrest).2⟩
    rw [foldMin_cons] at hk ⊢
    by_cases hc : key a < key b
    · rw [if_pos hc] at hk ⊢
      rcases List.mem_cons.mp hy with rfl | hy'
      · exfalso
        have hfa := (foldMin_key_le key l a).1
        exact absurd (lt_of_le_of_lt (le_trans hk hfa) hc) (lt_irrefl _)
      · exact ih a hrest y hy' hk
    · rw [if_neg hc] at hk ⊢
      have hkba : key b ≤ key a := le_of_not_lt hc
      rcases List.mem_cons.mp hy with hEq | hy'
      · rw [hEq] at hk ⊢
        exact ih b hsbl b (List.mem_cons_self b l) hk
      · rcases List.mem_cons.mp hy' with hEq | hy''
        · rw [hEq] at hk ⊢
          have h1 : foldMin key b l ≤ b :=
            ih b hsbl b (List.mem_cons_self b l) (le_trans hkba hk)
          exact le_trans h1 hba
        · exact ih b hsbl y (List.mem_cons_of_mem b hy'') hk

/-- `_round_to_nice_interval t` as the one-step `foldMin` over the tail of
`NICE_INTERVALS`. -/
theorem round_to_nice_interval_def (t : ℚ) :
    round_to_nice_interval t =
      foldMin (fun c => |c - t|) 1 [2, 3, 5, 10, 15, 20, 30, 60] := rfl

/-- The snapped interval is a member of `NICE_INTERVALS`. -/
theorem round_mem_nice (t : ℚ) : round_to_nice_interval t ∈ NICE_INTERVALS := by
  rw [round_to_nice_interval_def]
  rcases foldMin_eq_or_mem (fun c => |c - t|) [2, 3, 5, 10, 15, 20, 30, 60] 1 with h | h
  · rw [h]; simp [NICE_INTERVALS]
  · simp only [NICE_INTERVALS]
    exact List.mem_cons_of_mem 1 h

/-- The snapped interval minimizes the absolute distance to `t` over
`NICE_INTERVALS`. -/
theorem round_min_dist (t : ℚ) :
    ∀ x ∈ NICE_INTERVALS, |round_to_nice_interval t - t| ≤ |x - t| := by
  intro x hx
  rw [round_to_nice_interval_def]
  obtain ⟨h1, h2⟩ := foldMin_key_le (fun c => |c - t|) [2, 3, 5, 10, 15, 20, 30, 60] 1
  simp only [NICE_INTERVALS, List.mem_cons, List.not_mem_nil, or_false] at hx
  rcases hx with rfl | hx'
  · exact h1
  · refine h2 x ?_
    simp only [List.mem_cons, List.not_mem_nil, or_false]
    tauto

/-- One `foldMin` step of `_round_to_nice_interval`, with the key beta-reduced. -/
theorem foldMin_abs_step (t b a : ℚ) (l : List ℚ) :
    foldMin (fun c => |c - t|) b (a :: l) =
      foldMin (fun c => |c - t|) (if |a - t| < |b - t| then a else b) l := rfl

/-- Snapping the ideal interval 18 (one hour at 200 recommended images). -/
theorem round_eval_18 : round_to_nice_interval 18 = 20 := by
  rw [round_to_nice_interval_def,
    foldMin_abs_step, if_pos (sq_lt_sq.mp (by norm_num)),
    foldMin_abs_step, if_pos (sq_lt_sq.mp (by norm_num)),
    foldMin_abs_step, if_pos (sq_lt_sq.mp (by norm_num)),
    foldMin_abs_step, if_pos (sq_lt_sq.mp (by norm_num)),
    foldMin_abs_step, if_pos (sq_lt_sq.mp (by norm_num)),
    foldMin_abs_step, if_pos (sq_lt_sq.mp (by norm_num)),
    foldMin_abs_step, if_neg (not_lt.mpr (sq_le_sq.mp (by norm_num))),
    foldMin_abs_step, if_neg (not_lt.mpr (sq_le_sq.mp (by norm_num))),
    foldMin_nil]

/-- Snapping the ideal interval 12.5: the exact 10-vs-15 tie resolves to 10. -/
theorem round_eval_25_half : round_to_nice_interval (25 / 2) = 10 := by
  rw [round_to_nice_interval_def,
    foldMin_abs_step, if_pos (sq_lt_sq.mp (by norm_num)),
    foldMin_abs_step, if_pos (sq_lt_sq.mp (by norm_num)),
    foldMin_abs_step, if_pos (sq_lt_sq.mp (by norm_num)),
    foldMin_abs_step, if_pos (sq_lt_sq.mp (by norm_num)),
    foldMin_abs_step, if_neg (not_lt.mpr (sq_le_sq.mp (by norm_num))),
    foldMin_abs_step, if_neg (not_lt.mpr (sq_le_sq.mp (by norm_num))),
    foldMin_abs_step, if_neg (not_lt.mpr (sq_le_sq.mp (by norm_num))),
    foldMin_abs_step, if_neg (not_lt.mpr (sq_le_sq.mp (by norm_num))),
    foldMin_nil]

/-- Snapping the ideal interval 303/80 = 3.7875 (duration 303 s at 80
recommended images). -/
theorem round_eval_303_80 : round_to_nice_interval (303 / 80) = 3 := by
  rw [round_to_nice_interval_def,
    foldMin_abs_step, if_pos (sq_lt_sq.mp (by norm_num)),
    foldMin_abs_step, if_pos (sq_lt_sq.mp (by norm_num)),
    foldMin_abs_step, if_neg (not_lt.mpr (sq_le_sq.mp (by norm_num))),
    foldMin_abs_step, if_neg (not_lt.mpr (sq_le_sq.mp (by norm_num))),
    foldMin_abs_step, if_neg (not_lt.mpr (sq_le_sq.mp (by norm_num))),
    foldMin_abs_step, if_neg (not_lt.mpr (sq_le_sq.mp (by norm_num))),
    foldMin_abs_step, if_neg (not_lt.mpr (sq_le_sq.mp (by norm_num))),
    foldMin_abs_step, if_neg (not_lt.mpr (sq_le_sq.mp (by norm_num))),
    foldMin_nil]

/-- Snapping the clamped lower bound 1 gives back 1. -/
theorem round_eval_one : round_to_nice_interval 1 = 1 := by
  rw [round_to_nice_interval_def,
    foldMin_abs_step, if_neg (not_lt.mpr (sq_le_sq.mp (by norm_num))),
    foldMin_abs_step, if_neg (not_lt.mpr (sq_le_sq.mp (by norm_num))),
    foldMin_abs_step, if_neg (not_lt.mpr (sq_le_sq.mp (by norm_num))),
    foldMin_abs_step, if_neg (not_lt.mpr (sq_le_sq.mp (by norm_num))),
    foldMin_abs_step, if_neg (not_lt.mpr (sq_le_sq.mp (by norm_num))),
    foldMin_abs_step, if_neg (not_lt.mpr (sq_le_sq.mp (by norm_num))),
    foldMin_abs_step, if_neg (not_lt.mpr (sq_le_sq.mp (by norm_num))),
    foldMin_abs_step, if_neg (not_lt.mpr (sq_le_sq.mp (by norm_num))),
    foldMin_nil]

/-- Ties in the snapping distance resolve to the smaller candidate. -/
theorem round_tie_smaller (t : ℚ) :
    ∀ x ∈ NICE_INTERVALS, |x - t| = |round_to_nice_interval t - t| →
      round_to_nice_interval t ≤ x := by
  intro x hx hxe
  rw [round_to_nice_interval_def] at hxe ⊢
  have hsort : ((1 : ℚ) :: [2, 3, 5, 10, 15, 20, 30, 60]).Pairwise (· ≤ ·) := by
    norm_num
  refine foldMin_first_min (fun c => |c - t|) [2, 3, 5, 10, 15, 20, 30, 60] 1 hsort x ?_ (le_of_eq hxe)
  simpa [NICE_INTERVALS] using hx

/-! ### Branch equations for `calculate_strategy` -/

/-- The all-keyframes branch of `calculate_strategy`, taken when the
(known or estimated) keyframe count is within `recommended_images`. -/
theorem calc_all_branch (avg d : ℚ) (limits : ProviderLimits) (arg : Option ℤ)
    (h : arg.getD (estimate_iframes avg d) ≤ limits.recommended_images) :
    calculate_strategy_limits avg d limits arg =
      { mode := "all_iframes"
        interval := none
        estimated_frames := arg.getD (estimate_iframes avg d)
        description := s!"모든 I-Frame 추출 (약 {arg.getD (estimate_iframes avg d)}장)" } := by
  simp only [calculate_strategy_limits]
  rw [if_pos h]

/-- The interval branch of `calculate_strategy`, taken when the keyframe
count exceeds `recommended_images`. -/
theorem calc_interval_branch (avg d : ℚ) (limits : ProviderLimits) (arg : Option ℤ)
    (h : ¬ arg.getD (estimate_iframes avg d) ≤ limits.recommended_images) :
    calculate_strategy_limits avg d limits arg =
      { mode := "interval"
        interval := some (round_to_nice_interval
          (max 1 (min 60 (d / (limits.recommended_images : ℚ)))))
        estimated_frames := py_int (d / round_to_nice_interval
          (max 1 (min 60 (d / (limits.recommended_images : ℚ)))))
        description := s!"{py_int (round_to_nice_interval (max 1 (min 60 (d / (limits.recommended_images : ℚ)))))}초 간격 추출 (약 {py_int (d / round_to_nice_interval (max 1 (min 60 (d / (limits.recommended_images : ℚ)))))}장)" } := by
  simp only [calculate_strategy_limits]
  rw [if_neg h]

/-- In all-keyframes mode the estimate is bounded by `recommended_images`. -/
theorem calc_all_iframes_le (avg d : ℚ) (limits : ProviderLimits) (arg : Option ℤ)
    (h : (calculate_strategy_limits avg d limits arg).mode = "all_iframes") :
    (calculate_strategy_limits avg d limits arg).estimated_frames ≤
      limits.recommended_images := by
  by_cases hb : arg.getD (estimate_iframes avg d) ≤ limits.recommended_images
  · rw [calc_all_branch avg d limits arg hb]
    exact hb
  · rw [calc_interval_branch avg d limits arg hb] at h
    exact absurd h (show ("interval" : String) ≠ "all_iframes" by decide)

/-! ### Claims -/

/-- C1 counterexample: at `duration = 2500` with the Gemini limits the plan is
in INTERVAL mode (ideal interval 12.5 ties between 10 and 15, snapping to 10)
yet its estimated frame count 250 exceeds `recommended_images = 200`, refuting
the claimed INTERVAL-branch bound. -/
theorem claim_C1_counterexample :
    (calculate_strategy (1/3) 2500 AIProvider.gemini none).mode = "interval" ∧
    ¬ (calculate_strategy (1/3) 2500 AIProvider.gemini none).estimated_frames ≤
        (PROVIDER_LIMITS AIProvider.gemini).recommended_images := by
  have hb : ¬ (none : Option ℤ).getD (estimate_iframes (1/3) 2500) ≤
      (PROVIDER_LIMITS AIProvider.gemini).recommended_images := by
    norm_num [Option.getD, estimate_iframes, py_int, PROVIDER_LIMITS]
  rw [calculate_strategy, calc_interval_branch _ _ _ _ hb]
  norm_num [PROVIDER_LIMITS, py_int, min_def, max_def, round_eval_25_half]

/-- C1 (amended): for every duration and valid limits, the bound
`estimated_frames ≤ recommended_images` holds whenever the plan is in
ALL_KEYFRAMES mode (by the branch guard); in INTERVAL mode the estimate
equals `int(duration / interval)` and may exceed `recommended_images`. -/
theorem claim_C1_amended (avg d : ℚ) (limits : ProviderLimits) (arg : Option ℤ) :
    ((calculate_strategy_limits avg d limits arg).mode = "all_iframes" →
      (calculate_strategy_limits avg d limits arg).estimated_frames ≤
        limits.recommended_images) ∧
    (∀ iv, (calculate_strategy_limits avg d limits arg).interval = some iv →
      (calculate_strategy_limits avg d limits arg).estimated_frames =
        py_int (d / iv)) := by
  refine ⟨calc_all_iframes_le avg d limits arg, ?_⟩
  intro iv hiv
  by_cases hb : arg.getD (estimate_iframes avg d) ≤ limits.recommended_images
  · rw [calc_all_branch avg d limits arg hb] at hiv
    exact absurd hiv (by simp)
  · rw [calc_interval_branch avg d limits arg hb] at hiv ⊢
    injection hiv with h'
    rw [← h']

/-- Witness for C1 (amended) at duration 300 with the Gemini limits. -/
theorem claim_C1_witness :
    (calculate_strategy_limits (1/3) 300 (PROVIDER_LIMITS AIProvider.gemini) none).mode =
      "all_iframes" ∧
    (calculate_strategy_limits (1/3) 300 (PROVIDER_LIMITS AIProvider.gemini) none).estimated_frames ≤
      (PROVIDER_LIMITS AIProvider.gemini).recommended_images := by
  have hm : (calculate_strategy_limits (1/3) 300 (PROVIDER_LIMITS AIProvider.gemini) none).mode =
      "all_iframes" := by
    rw [calc_all_branch _ _ _ _
      (by norm_num [Option.getD, estimate_iframes, py_int, PROVIDER_LIMITS])]
  exact ⟨hm, (claim_C1_amended (1/3) 300 (PROVIDER_LIMITS AIProvider.gemini) none).1 hm⟩

/-- C2 counterexample: at `duration = 303` with the Claude limits the planner
produces an INTERVAL-mode plan (ideal interval 3.7875 snaps to 3) with 101
estimated frames, which fails its own hard-limit check (`max_images = 100`),
refuting `validate(plan(d, limits), limits).ok == True` for all `d ≥ 0`. -/
theorem claim_C2_counterexample :
    (validate_strategy (calculate_strategy (1/3) 303 AIProvider.claude none)
      AIProvider.claude).1 = false := by
  have hb : ¬ (none : Option ℤ).getD (estimate_iframes (1/3) 303) ≤
      (PROVIDER_LIMITS AIProvider.claude).recommended_images := by
    norm_num [Option.getD, estimate_iframes, py_int, PROVIDER_LIMITS]
  rw [calculate_strategy, calc_interval_branch _ _ _ _ hb]
  norm_num [validate_strategy, PROVIDER_LIMITS, py_int, min_def, max_def,
    round_eval_303_80]

/-- C2 (amended): the planner's output always passes its own validation
whenever the returned plan is in ALL_KEYFRAMES mode; an INTERVAL-mode plan
can exceed `max_images` and fail the hard-limit check. -/
theorem claim_C2_amended (avg d : ℚ) (p : AIProvider) (arg : Option ℤ)
    (h : (calculate_strategy avg d p arg).mode = "all_iframes") :
    (validate_strategy (calculate_strategy avg d p arg) p).1 = true := by
  have hle : (calculate_strategy avg d p arg).estimated_frames ≤
      (PROVIDER_LIMITS p).recommended_images :=
    calc_all_iframes_le avg d (PROVIDER_LIMITS p) arg h
  have hrm : (PROVIDER_LIMITS p).recommended_images ≤ (PROVIDER_LIMITS p).max_images := by
    cases p <;> decide
  simp only [validate_strategy]
  rw [if_neg (not_lt.mpr (le_trans hle hrm)), if_neg (not_lt.mpr hle)]

/-- Witness for C2 (amended) at duration 240 with Claude. -/
theorem claim_C2_witness :
    (validate_strategy (calculate_strategy (1/3) 240 AIProvider.claude none)
      AIProvider.claude).1 = true := by
  refine claim_C2_amended (1/3) 240 AIProvider.claude none ?_
  rw [calculate_strategy, calc_all_branch _ _ _ _
    (by norm_num [Option.getD, estimate_iframes, py_int, PROVIDER_LIMITS])]

/-- C3: the one-hour Gemini scenario — limits (3600, 200, 258), estimated
keyframes 1200 > 200, ideal interval 18 snaps to 20, and the plan is
INTERVAL mode with interval 20 and 180 estimated frames. -/
theorem claim_C3_scenario :
    (PROVIDER_LIMITS AIProvider.gemini).max_images = 3600 ∧
    (PROVIDER_LIMITS AIProvider.gemini).recommended_images = 200 ∧
    (PROVIDER_LIMITS AIProvider.gemini).tokens_per_image = 258 ∧
    estimate_iframes (1/3) 3600 = 1200 ∧
    (calculate_strategy (1/3) 3600 AIProvider.gemini none).mode = "interval" ∧
    (calculate_strategy (1/3) 3600 AIProvider.gemini none).interval = some 20 ∧
    (calculate_strategy (1/3) 3600 AIProvider.gemini none).estimated_frames = 180 := by
  have hb : ¬ (none : Option ℤ).getD (estimate_iframes (1/3) 3600) ≤
      (PROVIDER_LIMITS AIProvider.gemini).recommended_images := by
    norm_num [Option.getD, estimate_iframes, py_int, PROVIDER_LIMITS]
  refine ⟨rfl, rfl, rfl, by norm_num [estimate_iframes, py_int], ?_⟩
  rw [calculate_strategy, calc_interval_branch _ _ _ _ hb]
  norm_num [PROVIDER_LIMITS, py_int, min_def, max_def, round_eval_18]

/-- C4: whenever the plan carries a non-null interval, that interval is the
member of `NICE_INTERVALS` nearest (by absolute difference) to the ideal
interval `d / recommended_images` clamped to `[1, 60]`, with exact ties
resolved to the smaller candidate; in particular it lies in the set. -/
theorem claim_C4_snap (avg d : ℚ) (limits : ProviderLimits) (arg : Option ℤ) (iv : ℚ)
    (h : (calculate_strategy_limits avg d limits arg).interval = some iv) :
    iv ∈ NICE_INTERVALS ∧
    (∀ x ∈ NICE_INTERVALS,
      |iv - max 1 (min 60 (d / (limits.recommended_images : ℚ)))| ≤
        |x - max 1 (min 60 (d / (limits.recommended_images : ℚ)))|) ∧
    (∀ x ∈ NICE_INTERVALS,
      |x - max 1 (min 60 (d / (limits.recommended_images : ℚ)))| =
        |iv - max 1 (min 60 (d / (limits.recommended_images : ℚ)))| → iv ≤ x) := by
  by_cases hb : arg.getD (estimate_iframes avg d) ≤ limits.recommended_images
  · rw [calc_all_branch avg d limits arg hb] at h
    exact absurd h (by simp)
  · rw [calc_interval_branch avg d limits arg hb] at h
    injection h with h'
    subst h'
    exact ⟨round_mem_nice _, round_min_dist _, round_tie_smaller _⟩

/-- Witness for C4 at the one-hour Gemini scenario, where the snapped
interval is 20. -/
theorem claim_C4_witness :
    (20 : ℚ) ∈ NICE_INTERVALS ∧
    (∀ x ∈ NICE_INTERVALS,
      |(20:ℚ) - max 1 (min 60 (3600 / ((PROVIDER_LIMITS AIProvider.gemini).recommended_images : ℚ)))| ≤
        |x - max 1 (min 60 (3600 / ((PROVIDER_LIMITS AIProvider.gemini).recommended_images : ℚ)))|) ∧
    (∀ x ∈ NICE_INTERVALS,
      |x - max 1 (min 60 (3600 / ((PROVIDER_LIMITS AIProvider.gemini).recommended_images : ℚ)))| =
        |(20:ℚ) - max 1 (min 60 (3600 / ((PROVIDER_LIMITS AIProvider.gemini).recommended_images : ℚ)))| →
      (20:ℚ) ≤ x) :=
  claim_C4_snap (1/3) 3600 (PROVIDER_LIMITS AIProvider.gemini) none 20 (by
    rw [calc_interval_branch _ _ _ _
      (by norm_num [Option.getD, estimate_iframes, py_int, PROVIDER_LIMITS])]
    norm_num [PROVIDER_LIMITS, min_def, max_def, round_eval_18])

/-- An all-keyframes entry satisfies the mode/interval pairing invariant. -/
theorem modeInvariant_all_entry (e : ℤ) (ds : String) :
    modeInvariant ⟨"all_iframes", none, e, ds⟩ := by
  refine ⟨by simp, ?_, ?_⟩
  · intro h
    exact absurd h (show ("all_iframes" : String) ≠ "interval" by decide)
  · rintro ⟨x, hx, _⟩
    exact absurd hx (by simp)

/-- An interval entry with a positive interval satisfies the mode/interval
pairing invariant. -/
theorem modeInvariant_interval_entry (iv : ℚ) (hpos : 0 < iv) (e : ℤ) (ds : String) :
    modeInvariant ⟨"interval", some iv, e, ds⟩ := by
  refine ⟨⟨?_, ?_⟩, ?_, ?_⟩
  · intro h
    exact absurd h (show ("interval" : String) ≠ "all_iframes" by decide)
  · intro h
    exact absurd h (by simp)
  · intro _
    exact ⟨iv, rfl, hpos⟩
  · intro _
    rfl

/-- Every member of `NICE_INTERVALS` is positive. -/
theorem nice_intervals_pos : ∀ x ∈ NICE_INTERVALS, (0 : ℚ) < x := by
  decide

/-- Every strategy produced by `calculate_strategy` satisfies the
mode/interval pairing invariant. -/
theorem calc_modeInvariant (avg d : ℚ) (limits : ProviderLimits) (arg : Option ℤ) :
    modeInvariant (calculate_strategy_limits avg d limits arg) := by
  by_cases hb : arg.getD (estimate_iframes avg d) ≤ limits.recommended_images
  · rw [calc_all_branch avg d limits arg hb]
    exact modeInvariant_all_entry _ _
  · rw [calc_interval_branch avg d limits arg hb]
    exact modeInvariant_interval_entry _
      (nice_intervals_pos _ (round_mem_nice _)) _ _

/-- Every strategy offered by `get_preset_strategies` satisfies the
mode/interval pairing invariant. -/
theorem presets_modeInvariant (avg d : ℚ) (p : AIProvider) :
    ∀ ls ∈ get_preset_strategies avg d p, modeInvariant ls.2 := by
  intro ls hls
  simp only [get_preset_strategies, List.mem_append] at hls
  rcases hls with (((h | h) | h) | h) | h
  · split at h
    · rw [List.mem_singleton] at h
      subst h
      exact modeInvariant_interval_entry 2 (by norm_num) _ _
    · exact absurd h (List.not_mem_nil ls)
  · split at h
    · rw [List.mem_singleton] at h
      subst h
      exact modeInvariant_interval_entry 5 (by norm_num) _ _
    · exact absurd h (List.not_mem_nil ls)
  · split at h
    · rw [List.mem_singleton] at h
      subst h
      exact modeInvariant_interval_entry 10 (by norm_num) _ _
    · exact absurd h (List.not_mem_nil ls)
  · split at h
    · rw [List.mem_singleton] at h
      subst h
      exact modeInvariant_all_entry _ _
    · exact absurd h (List.not_mem_nil ls)
  · rw [List.mem_singleton] at h
    subst h
    exact calc_modeInvariant avg d (PROVIDER_LIMITS p) none

/-- C5: every strategy produced by the planner or offered by the preset menu
satisfies the pairing invariant: `mode == ALL_KEYFRAMES` iff `interval` is
null, and `mode == INTERVAL` iff `interval` is a positive number. -/
theorem claim_C5_mode_invariant (avg d : ℚ) (limits : ProviderLimits)
    (arg : Option ℤ) (p : AIProvider) :
    modeInvariant (calculate_strategy_limits avg d limits arg) ∧
    ∀ ls ∈ get_preset_strategies avg d p, modeInvariant ls.2 :=
  ⟨calc_modeInvariant avg d limits arg, presets_modeInvariant avg d p⟩

/-- Witness for C5 at the one-hour Gemini scenario. -/
theorem claim_C5_witness :
    modeInvariant (calculate_strategy_limits (1/3) 3600
      (PROVIDER_LIMITS AIProvider.gemini) none) ∧
    ∀ ls ∈ get_preset_strategies (1/3) 3600 AIProvider.gemini, modeInvariant ls.2 :=
  claim_C5_mode_invariant (1/3) 3600 (PROVIDER_LIMITS AIProvider.gemini) none
    AIProvider.gemini

/-- C6: `validate` decides among exactly three outcomes, in order, by
`estimated_frames` alone — invalid with the hard-ceiling message when the
count exceeds `max_images`, valid with the soft-ceiling warning when it only
exceeds `recommended_images`, and valid with the normal-range message
otherwise; it is a total function and never rejects in any other way. -/
theorem claim_C6_validate (s : ExtractionStrategy) (p : AIProvider) :
    ((validate_strategy s p).1 = true ↔
      s.estimated_frames ≤ (PROVIDER_LIMITS p).max_images) ∧
    ((PROVIDER_LIMITS p).max_images < s.estimated_frames →
      validate_strategy s p =
        (false, s!"이미지 수({s.estimated_frames}장)가 {p.value}의 최대 허용({(PROVIDER_LIMITS p).max_images}장)을 초과합니다.")) ∧
    (s.estimated_frames ≤ (PROVIDER_LIMITS p).max_images →
      (PROVIDER_LIMITS p).recommended_images < s.estimated_frames →
      validate_strategy s p =
        (true, s!"이미지 수({s.estimated_frames}장)가 권장 ({(PROVIDER_LIMITS p).recommended_images}장)을 초과합니다. 토큰 사용량이 증가할 수 있습니다.")) ∧
    (s.estimated_frames ≤ (PROVIDER_LIMITS p).max_images →
      s.estimated_frames ≤ (PROVIDER_LIMITS p).recommended_images →
      validate_strategy s p = (true, "적정 범위입니다.")) := by
  simp only [validate_strategy]
  refine ⟨?_, ?_, ?_, ?_⟩
  · by_cases hc1 : (PROVIDER_LIMITS p).max_images < s.estimated_frames
    · rw [if_pos hc1]
      constructor
      · intro h
        exact absurd h (by simp)
      · intro h
        exact absurd hc1 (not_lt.mpr h)
    · by_cases hc2 : (PROVIDER_LIMITS p).recommended_images < s.estimated_frames
      · rw [if_neg hc1, if_pos hc2]
        exact iff_of_true rfl (not_lt.mp hc1)
      · rw [if_neg hc1, if_neg hc2]
        exact iff_of_true rfl (not_lt.mp hc1)
  · intro hc1
    rw [if_pos hc1]
  · intro h1 h2
    rw [if_neg (not_lt.mpr h1), if_pos h2]
  · intro h1 h2
    rw [if_neg (not_lt.mpr h1), if_neg (not_lt.mpr h2)]

/-- Witness for C6: a 50-frame strategy against Claude falls in the
normal range. -/
theorem claim_C6_witness :
    validate_strategy ⟨"interval", some 5, 50, "x"⟩ AIProvider.claude =
      (true, "적정 범위입니다.") :=
  (claim_C6_validate ⟨"interval", some 5, 50, "x"⟩ AIProvider.claude).2.2.2
    (by decide) (by decide)

/-- The preset menu at duration 3 with rate 1/3: only the all-keyframes entry
and the auto entry. -/
theorem presets_at_three (p : AIProvider) :
    (get_preset_strategies (1/3) 3 p).map Prod.fst =
      ["모든 I-Frame", "자동 (추천)"] := by
  have hei : estimate_iframes (1/3) 3 = 1 := by
    norm_num [estimate_iframes, py_int]
  have hmax1 : (1 : ℤ) ≤ (PROVIDER_LIMITS p).max_images := by
    cases p <;> decide
  simp only [get_preset_strategies]
  rw [hei, if_neg (show ¬ (4 : ℚ) ≤ 3 by norm_num),
    if_neg (show ¬ (10 : ℚ) ≤ 3 by norm_num),
    if_neg (show ¬ (20 : ℚ) ≤ 3 by norm_num), if_pos hmax1]
  rfl

/-- C7: the preset menu is gated exactly as tabulated — the 2-second preset
iff `duration ≥ 4`, the 5-second preset iff `duration ≥ 10`, the 10-second
preset iff `duration ≥ 20`, the all-keyframes preset iff the estimated
keyframe count is within `max_images`, the auto entry always — and at
duration 3 only the all-keyframes and auto entries appear. -/
theorem claim_C7_preset_gates (avg d : ℚ) (p : AIProvider) :
    (("상세 (2초 간격)" ∈ (get_preset_strategies avg d p).map Prod.fst) ↔ 4 ≤ d) ∧
    (("표준 (5초 간격)" ∈ (get_preset_strategies avg d p).map Prod.fst) ↔ 10 ≤ d) ∧
    (("간략 (10초 간격)" ∈ (get_preset_strategies avg d p).map Prod.fst) ↔ 20 ≤ d) ∧
    (("모든 I-Frame" ∈ (get_preset_strategies avg d p).map Prod.fst) ↔
      estimate_iframes avg d ≤ (PROVIDER_LIMITS p).max_images) ∧
    ("자동 (추천)" ∈ (get_preset_strategies avg d p).map Prod.fst) ∧
    (get_preset_strategies (1/3) 3 p).map Prod.fst =
      ["모든 I-Frame", "자동 (추천)"] := by
  refine ⟨?_, ?_, ?_, ?_, ?_, presets_at_three p⟩ <;>
  · by_cases h4 : (4 : ℚ) ≤ d <;>
    by_cases h10 : (10 : ℚ) ≤ d <;>
    by_cases h20 : (20 : ℚ) ≤ d <;>
    by_cases hm : estimate_iframes avg d ≤ (PROVIDER_LIMITS p).max_images <;>
    simp [get_preset_strategies, h4, h10, h20, hm]

/-- C8: the planner is total, and at `duration = 0` with a supplied keyframe
count exceeding `recommended_images` (positive by invariant) the interval
branch clamps the ideal interval 0 up to 1 and returns 0 estimated frames —
degenerate input, not an error. -/
theorem claim_C8_zero_duration (avg : ℚ) (limits : ProviderLimits) (k : ℤ)
    (_hrec : 0 < limits.recommended_images) (hk : limits.recommended_images < k) :
    (calculate_strategy_limits avg 0 limits (some k)).mode = "interval" ∧
    (calculate_strategy_limits avg 0 limits (some k)).interval = some 1 ∧
    (calculate_strategy_limits avg 0 limits (some k)).estimated_frames = 0 := by
  have hb : ¬ (some k).getD (estimate_iframes avg 0) ≤ limits.recommended_images := by
    simp only [Option.getD]
    exact not_le.mpr hk
  rw [calc_interval_branch avg 0 limits (some k) hb]
  have hc : max (1:ℚ) (min 60 ((0:ℚ) / (limits.recommended_images : ℚ))) = 1 := by
    rw [zero_div]
    norm_num [min_def, max_def]
  rw [hc, round_eval_one]
  refine ⟨rfl, rfl, ?_⟩
  norm_num [py_int]

/-- Witness for C8 with the Gemini limits and a known keyframe count of 300. -/
theorem claim_C8_witness :
    0 < (PROVIDER_LIMITS AIProvider.gemini).recommended_images ∧
    (PROVIDER_LIMITS AIProvider.gemini).recommended_images < 300 ∧
    ((calculate_strategy_limits (1/3) 0 (PROVIDER_LIMITS AIProvider.gemini)
        (some 300)).mode = "interval" ∧
      (calculate_strategy_limits (1/3) 0 (PROVIDER_LIMITS AIProvider.gemini)
        (some 300)).interval = some 1 ∧
      (calculate_strategy_limits (1/3) 0 (PROVIDER_LIMITS AIProvider.gemini)
        (some 300)).estimated_frames = 0) :=
  ⟨by decide, by decide,
    claim_C8_zero_duration (1/3) (PROVIDER_LIMITS AIProvider.gemini) 300
      (by decide) (by decide)⟩

/-- C9: `estimate_tokens` is exactly `frame_count * tokens_per_image` and is
linear: doubling the frame count doubles the token estimate. -/
theorem claim_C9_tokens (n : ℤ) (p : AIProvider) :
    estimate_tokens n p = n * (PROVIDER_LIMITS p).tokens_per_image ∧
    estimate_tokens (2 * n) p = 2 * estimate_tokens n p := by
  refine ⟨rfl, ?_⟩
  simp only [estimate_tokens]
  ring

/-- C10: validation depends only on `estimated_frames` — two strategies with
equal frame counts validate identically against any provider, so mode,
interval and description never influence the verdict or the message. -/
theorem claim_C10_frame_count_only (p : AIProvider) (s1 s2 : ExtractionStrategy)
    (h : s1.estimated_frames = s2.estimated_frames) :
    validate_strategy s1 p = validate_strategy s2 p := by
  simp only [validate_strategy, h]

/-- Witness for C10: an inconsistent hand-built strategy validates the same
as a consistent one with equal frame count. -/
theorem claim_C10_witness :
    validate_strategy ⟨"interval", some 5, 50, "a"⟩ AIProvider.claude =
      validate_strategy ⟨"all_iframes", none, 50, "b"⟩ AIProvider.claude :=
  claim_C10_frame_count_only AIProvider.claude _ _ rfl

end MovieFileAnalyzer
